import Mathlib

/-!
Verification of the statistics, cleaning and retry layers of an NBA
analytics code base.

The Python source computes closed-form basketball statistics over named
numeric fields (`src/features/stats.py`, duplicated in `src/data/stats.py`),
cleans raw box-score rows (`src/data/cleaner.py`), invokes the registered
formula catalogues with keyword arguments (`src/data/loader.py`), and wraps
HTTP fetches in a fixed-count retry loop (`src/utils/data.py`).

Numeric fields are embedded as exact rationals (`ℚ`); decimal literals of
the source (0.5, 0.44, 1.07, the four-factor weights) become the exact
rationals they denote.  Division follows the source expression shape; in ℚ
the convention `x / 0 = 0` is harmless for the theorems below because no
claim depends on the value of a division at a zero denominator except the
cleaner, which is modelled with an explicit undefined value.
-/

namespace NBA

/-- Configuration held by the `Stats` constructor: the free-throw weight
(default 0.44) and the four Dean Oliver factor weights
(defaults 0.4 / 0.25 / 0.2 / 0.15).  The pythagorean exponent is omitted:
no claim below mentions it. -/
structure StatsConfig where
  ft_weight : ℚ
  four_factor_shooting_weight : ℚ
  four_factor_turnover_weight : ℚ
  four_factor_rebounding_weight : ℚ
  four_factor_free_throw_weight : ℚ

/-- The default `Stats()` instance: free_throw_weight = 0.44,
four-factor weights 0.4, 0.25, 0.2, 0.15. -/
def defaultStats : StatsConfig :=
  { ft_weight := 44/100
    four_factor_shooting_weight := 4/10
    four_factor_turnover_weight := 25/100
    four_factor_rebounding_weight := 2/10
    four_factor_free_throw_weight := 15/100 }

/-- `Stats.two_point_attempts`: `np.subtract(FGA, FG3A)`. -/
def two_point_attempts (FGA FG3A : ℚ) : ℚ := FGA - FG3A

/-- `Stats.two_point_makes`: `np.subtract(FGM, FG3M)`. -/
def two_point_makes (FGM FG3M : ℚ) : ℚ := FGM - FG3M

/-- `Stats.three_point_pct`: `np.divide(FG3M, FG3A)`. -/
def three_point_pct (FG3M FG3A : ℚ) : ℚ := FG3M / FG3A

/-- `Stats.effective_field_goal_pct`: the body is
`np.divide(np.add(np.multiply(FGM, 0.5), FG3M), FGA)`, i.e.
(FGM * 0.5 + FG3M) / FGA.  Note the 0.5 multiplies FGM, although the
docstring of the same function states eFG% = (FGM + 0.5*3PM) / FGA.
The duplicate in `src/data/stats.py` has the identical body. -/
def effective_field_goal_pct (FGA FGM FG3M : ℚ) : ℚ :=
  (FGM * (1/2) + FG3M) / FGA

/-- `Stats._true_shooting_attempts`: `np.add(FGA, np.multiply(FTA, self._ft_weight))`. -/
def true_shooting_attempts (cfg : StatsConfig) (FGA FTA : ℚ) : ℚ :=
  FGA + FTA * cfg.ft_weight

/-- `Stats.true_shooting_pct`: the body is
`np.divide(PTS, self._true_shooting_attempts(FGA=FGA, FTA=FTA))`, i.e.
PTS / TSA, although the docstring of the same function states
TS% = PTS / (2*TSA).  The duplicate in `src/data/stats.py` has the
identical body. -/
def true_shooting_pct (cfg : StatsConfig) (PTS FGA FTA : ℚ) : ℚ :=
  PTS / true_shooting_attempts cfg FGA FTA

/-- `Stats.minor_possessions`: FGA + ft_weight * FTA + TOV. -/
def minor_possessions (cfg : StatsConfig) (FGA FTA TOV : ℚ) : ℚ :=
  FGA + FTA * cfg.ft_weight + TOV

/-- `TeamStats.turnover_pct`: TOV / minor_possessions. -/
def turnover_pct (cfg : StatsConfig) (FGA FTA TOV : ℚ) : ℚ :=
  TOV / minor_possessions cfg FGA FTA TOV

/-- `TeamStats.rebound_pct`: REB / (REB + OPP_REB). -/
def rebound_pct (REB OPP_REB : ℚ) : ℚ := REB / (REB + OPP_REB)

/-- `TeamStats.offensive_rebound_pct`: OREB / (OREB + OPP_DREB). -/
def offensive_rebound_pct (OREB OPP_DREB : ℚ) : ℚ := OREB / (OREB + OPP_DREB)

/-- `TeamStats.shooting_factor`: delegates to `effective_field_goal_pct`. -/
def shooting_factor (FGA FGM FG3M : ℚ) : ℚ := effective_field_goal_pct FGA FGM FG3M

/-- `TeamStats.turnover_factor`: delegates to `turnover_pct`. -/
def turnover_factor (cfg : StatsConfig) (TOV FGA FTA : ℚ) : ℚ :=
  turnover_pct cfg FGA FTA TOV

/-- `TeamStats.rebound_factor`: delegates to `rebound_pct`. -/
def rebound_factor (REB OPP_REB : ℚ) : ℚ := rebound_pct REB OPP_REB

/-- `TeamStats.free_throw_factor`: FTM / FGA. -/
def free_throw_factor (FTM FGA : ℚ) : ℚ := FTM / FGA

/-- `TeamStats.four_factor_score`: the np.sum of the four factors, each
multiplied by its configured weight. -/
def four_factor_score (cfg : StatsConfig)
    (FGA FGM FG3M FTM FTA REB OPP_REB TOV : ℚ) : ℚ :=
  shooting_factor FGA FGM FG3M * cfg.four_factor_shooting_weight
    + turnover_factor cfg TOV FGA FTA * cfg.four_factor_turnover_weight
    + rebound_factor REB OPP_REB * cfg.four_factor_rebounding_weight
    + free_throw_factor FTM FGA * cfg.four_factor_free_throw_weight

/-- `TeamStats._team_possessions`:
FGA + ft_weight*FTA + (-1.07) * (OREB% * (FGA - FGM)) + TOV,
where OREB% = offensive_rebound_pct(OREB, OPP_DREB). -/
def team_possessions (cfg : StatsConfig)
    (FGA FGM FTA OREB OPP_DREB TOV : ℚ) : ℚ :=
  FGA + cfg.ft_weight * FTA
    + (-(107/100)) * (offensive_rebound_pct OREB OPP_DREB * (FGA - FGM))
    + TOV

/-- `TeamStats.possessions`:
0.5 * (team_possessions(team fields, OPP_DREB) +
       team_possessions(opponent fields, with the team's DREB as the
       opponent-of-opponent defensive rebounds)). -/
def possessions (cfg : StatsConfig)
    (FGA FGM FTA DREB OREB TOV
     OPP_FGA OPP_FGM OPP_FTA OPP_OREB OPP_DREB OPP_TOV : ℚ) : ℚ :=
  (1/2) * (team_possessions cfg FGA FGM FTA OREB OPP_DREB TOV
    + team_possessions cfg OPP_FGA OPP_FGM OPP_FTA OPP_OREB DREB OPP_TOV)

/-- `TeamStats.offensive_rating`: 100 * (PTS / possessions). -/
def offensive_rating (cfg : StatsConfig)
    (PTS FGA FGM FTA DREB OREB TOV
     OPP_FGA OPP_FGM OPP_FTA OPP_OREB OPP_DREB OPP_TOV : ℚ) : ℚ :=
  100 * (PTS / possessions cfg FGA FGM FTA DREB OREB TOV
    OPP_FGA OPP_FGM OPP_FTA OPP_OREB OPP_DREB OPP_TOV)

/-- `TeamStats.defensive_rating`: 100 * (OPP_PTS / possessions). -/
def defensive_rating (cfg : StatsConfig)
    (FGA FGM FTA DREB OREB TOV OPP_PTS
     OPP_FGA OPP_FGM OPP_FTA OPP_OREB OPP_DREB OPP_TOV : ℚ) : ℚ :=
  100 * (OPP_PTS / possessions cfg FGA FGM FTA DREB OREB TOV
    OPP_FGA OPP_FGM OPP_FTA OPP_OREB OPP_DREB OPP_TOV)

/-- Claim C1.  The effective field goal operation at the spec's example
FGM=10, FGA=20, FG3M=2 returns 0.35, not the 0.55 demanded by the claim
and by the function's own docstring eFG% = (FGM + 0.5*3PM)/FGA: the body
multiplies 0.5 into FGM instead of FG3M. -/
theorem C1_efg_code_bug_eval :
    effective_field_goal_pct 20 10 2 = 35/100 ∧
      effective_field_goal_pct 20 10 2 ≠ 55/100 ∧
      (10 + (1/2) * 2) / 20 = (55 : ℚ)/100 := by
  refine ⟨by norm_num [effective_field_goal_pct], by norm_num [effective_field_goal_pct], by norm_num⟩

/-- Claim C2.  At the spec's example PTS=30, FGA=20, FTA=10 the
true-shooting attempts are 24.4 as claimed, but `true_shooting_pct`
returns PTS / TSA = 75/61, not PTS / (2*TSA) = 75/122 demanded by the
claim and by the function's own docstring TS% = PTS / (2*TSA): the body
omits the factor 2. -/
theorem C2_ts_code_bug_eval :
    true_shooting_attempts defaultStats 20 10 = 122/5 ∧
      true_shooting_pct defaultStats 30 20 10 = 75/61 ∧
      true_shooting_pct defaultStats 30 20 10 ≠ 30 / (2 * (122/5)) := by
  refine ⟨?_, ?_, ?_⟩ <;>
    norm_num [true_shooting_pct, true_shooting_attempts, defaultStats]

/-- Claim C6.  The two-point decomposition round-trips: two-point makes
plus three-point makes give back field-goal makes, and likewise for
attempts, for every input row. -/
theorem C6_two_point_round_trip (FGM FG3M FGA FG3A : ℚ) :
    two_point_makes FGM FG3M + FG3M = FGM ∧
      two_point_attempts FGA FG3A + FG3A = FGA := by
  constructor <;> simp [two_point_makes, two_point_attempts]

/-- Claim C7.  For two box-score rows A and B of the same game, A's
defensive rating with B's fields as the opponent fields equals B's
offensive rating with A's fields as the opponent fields, and both equal
100 times B's points divided by the shared possession estimate. -/
theorem C7_rating_symmetry (cfg : StatsConfig)
    (aPTS aFGA aFGM aFTA aDREB aOREB aTOV
     bPTS bFGA bFGM bFTA bDREB bOREB bTOV : ℚ) :
    defensive_rating cfg aFGA aFGM aFTA aDREB aOREB aTOV
        bPTS bFGA bFGM bFTA bOREB bDREB bTOV
      = offensive_rating cfg bPTS bFGA bFGM bFTA bDREB bOREB bTOV
        aFGA aFGM aFTA aOREB aDREB aTOV ∧
    defensive_rating cfg aFGA aFGM aFTA aDREB aOREB aTOV
        bPTS bFGA bFGM bFTA bOREB bDREB bTOV
      = 100 * (bPTS / possessions cfg aFGA aFGM aFTA aDREB aOREB aTOV
        bFGA bFGM bFTA bOREB bDREB bTOV) := by
  have hposs : possessions cfg aFGA aFGM aFTA aDREB aOREB aTOV
      bFGA bFGM bFTA bOREB bDREB bTOV
      = possessions cfg bFGA bFGM bFTA bDREB bOREB bTOV
        aFGA aFGM aFTA aOREB aDREB aTOV := by
    simp only [possessions]
    ring
  constructor
  · simp only [defensive_rating, offensive_rating, hposs]
  · simp only [defensive_rating]

/-- Claim C8.  Under the default weights, the four-factor score is exactly
0.4 * shooting factor + 0.25 * turnover factor + 0.2 * rebound factor
+ 0.15 * free-throw factor, and the default weights sum to 1. -/
theorem C8_four_factor_weighted_sum
    (FGA FGM FG3M FTM FTA REB OPP_REB TOV : ℚ) :
    four_factor_score defaultStats FGA FGM FG3M FTM FTA REB OPP_REB TOV
      = (4/10) * shooting_factor FGA FGM FG3M
        + (25/100) * turnover_factor defaultStats TOV FGA FTA
        + (2/10) * rebound_factor REB OPP_REB
        + (15/100) * free_throw_factor FTM FGA ∧
    defaultStats.four_factor_shooting_weight
        + defaultStats.four_factor_turnover_weight
        + defaultStats.four_factor_rebounding_weight
        + defaultStats.four_factor_free_throw_weight = 1 := by
  constructor
  · simp only [four_factor_score, defaultStats]
    ring
  · norm_num [defaultStats]

/-- Claim C9.  For every valid makes/attempts input
(0 ≤ FG3M ≤ FGM ≤ FGA, 0 ≤ FG3A ≤ FGA, FG3M ≤ FG3A, FGA > 0) the value
returned by the effective field goal percentage operation lies in
[0, 1.5].  (This holds for the body as written: its numerator
FGM * 0.5 + FG3M is nonnegative and at most 1.5 * FGA.) -/
theorem C9_efg_range (FGA FGM FG3M FG3A : ℚ)
    (h3 : 0 ≤ FG3M) (h3M : FG3M ≤ FGM) (hMA : FGM ≤ FGA)
    (h3A0 : 0 ≤ FG3A) (h3AA : FG3A ≤ FGA) (h33 : FG3M ≤ FG3A)
    (hA : 0 < FGA) :
    0 ≤ effective_field_goal_pct FGA FGM FG3M ∧
      effective_field_goal_pct FGA FGM FG3M ≤ 3/2 := by
  have hM0 : (0 : ℚ) ≤ FGM := le_trans h3 h3M
  constructor
  · exact div_nonneg (by linarith) (le_of_lt hA)
  · rw [effective_field_goal_pct, div_le_iff₀ hA]
    linarith

/-- Witness for C9 at FGA=20, FGM=10, FG3M=2, FG3A=5. -/
theorem C9_efg_range_witness :
    0 ≤ effective_field_goal_pct 20 10 2 ∧
      effective_field_goal_pct 20 10 2 ≤ 3/2 :=
  C9_efg_range 20 10 2 5 (by norm_num) (by norm_num) (by norm_num)
    (by norm_num) (by norm_num) (by norm_num) (by norm_num)

/-! ## Cleaning layer (`src/data/cleaner.py`) -/

/-- A pandas cell value: a number, or the undefined value produced by
dividing by zero (NaN for 0/0, ±inf otherwise — the claims below never
distinguish the two, only "not a number"). -/
inductive PVal where
  | num (q : ℚ)
  | undef
deriving DecidableEq

/-- Pandas `Series.divide` on two cells: numeric division, undefined when
the denominator is zero or an operand is already undefined. -/
def pdiv : PVal → PVal → PVal
  | PVal.num a, PVal.num b => if b = 0 then PVal.undef else PVal.num (a / b)
  | _, _ => PVal.undef

/-- The fields of a team-game row read or written by
`TeamGameDataCleaner._adjust_three_point_shooting`. -/
structure GameRow where
  FG3M : ℚ
  FG3A : ℚ
  FG3_PCT : PVal
deriving DecidableEq

/-- `TeamGameDataCleaner._adjust_three_point_shooting`: first overwrite
FG3_PCT with FG3M / FG3A (pandas division), then set FG3_PCT to 0.0 on
every row whose FG3A equals 0. -/
def adjust_three_point_shooting (r : GameRow) : GameRow :=
  let r1 : GameRow := { r with FG3_PCT := pdiv (PVal.num r.FG3M) (PVal.num r.FG3A) }
  if r.FG3A = 0 then { r1 with FG3_PCT := PVal.num 0 } else r1

/-- Claim C3.  After cleaning, a row with FG3A = 0 has FG3_PCT exactly 0
(a number, not NaN), and a row with FG3A > 0 has FG3_PCT equal to
FG3M / FG3A, the value of `Stats.three_point_pct`. -/
theorem C3_three_point_pct_cleaned (r : GameRow) :
    (r.FG3A = 0 → (adjust_three_point_shooting r).FG3_PCT = PVal.num 0) ∧
      (0 < r.FG3A → (adjust_three_point_shooting r).FG3_PCT
        = PVal.num (three_point_pct r.FG3M r.FG3A)) := by
  constructor
  · intro h0
    simp [adjust_three_point_shooting, h0]
  · intro hpos
    have hne : r.FG3A ≠ 0 := ne_of_gt hpos
    simp [adjust_three_point_shooting, pdiv, hne, three_point_pct]

/-- Witness for C3 at a row with FG3A = 0 and a row with FG3A = 4. -/
theorem C3_three_point_pct_cleaned_witness :
    (adjust_three_point_shooting ⟨2, 0, PVal.undef⟩).FG3_PCT = PVal.num 0 ∧
      (adjust_three_point_shooting ⟨3, 4, PVal.undef⟩).FG3_PCT
        = PVal.num (three_point_pct 3 4) :=
  ⟨(C3_three_point_pct_cleaned ⟨2, 0, PVal.undef⟩).1 rfl,
   (C3_three_point_pct_cleaned ⟨3, 4, PVal.undef⟩).2 (by norm_num)⟩

/-! ## Retry wrapper (`src/utils/data.py`, used by `src/data/retriever.py`)

The source:
```
def retry(func: Callable, retries=3):
    def retry_wrapper(*args, **kwargs):
        attempts = 0
        while attempts < retries:
            try:
                return func(*args, **kwargs)
            except requests.exceptions.RequestException as e:
                print(e)
                time.sleep(30)
                attempts += 1
    return retry_wrapper
```
An attempt is modelled by what the wrapped call does on its n-th
invocation: return a value, raise a `requests` RequestException, or raise
any other exception.  The wrapper's observable behaviour is its outcome
(a returned value, the implicit `return None` when the loop exhausts, a
propagated RequestException, or a propagated other exception) together
with the number of calls made and sleeps performed. -/

/-- Behaviour of one invocation of the wrapped function. -/
inductive Attempt (α : Type) where
  | ok (v : α)
  | requestException
  | otherException
deriving DecidableEq

/-- Observable outcome of the wrapper: a normal return of the wrapped
function's value, the implicit normal return of None after the loop
exhausts, or a propagated exception of either kind. -/
inductive RetryResult (α : Type) where
  | value (v : α)
  | noneReturn
  | raisedRequest
  | raisedOther
deriving DecidableEq

/-- The fixed sleep interval of the retry loop, in seconds. -/
def sleep_interval : ℕ := 30

/-- The retry loop from attempt counter `attempts` with
`remaining = retries - attempts` loop iterations left; returns the
outcome, the number of calls to the wrapped function, and the number of
sleeps performed. -/
def retryAux {α : Type} (f : ℕ → Attempt α) (attempts : ℕ) :
    ℕ → RetryResult α × ℕ × ℕ
  | 0 => (RetryResult.noneReturn, 0, 0)
  | remaining + 1 =>
    match f attempts with
    | Attempt.ok v => (RetryResult.value v, 1, 0)
    | Attempt.requestException =>
      let r := retryAux f (attempts + 1) remaining
      (r.1, r.2.1 + 1, r.2.2 + 1)
    | Attempt.otherException => (RetryResult.raisedOther, 1, 0)

/-- `retry(func)` with the default `retries=3`: run the loop from
attempts = 0 with 3 iterations available. -/
def retry_wrapper {α : Type} (f : ℕ → Attempt α) : RetryResult α × ℕ × ℕ :=
  retryAux f 0 3

/-- Claim C4 counterexample.  A wrapped fetch whose every attempt raises a
RequestException: after the 3 attempts (each followed by a sleep) the
wrapper returns None — a normal value — instead of propagating the
exception, contradicting the claim that exhaustion surfaces the
underlying exception uncaught. -/
theorem C4_retry_exhaustion_counterexample :
    retry_wrapper (fun _ => (Attempt.requestException : Attempt ℚ))
        = (RetryResult.noneReturn, 3, 3) ∧
      (RetryResult.noneReturn : RetryResult ℚ) ≠ RetryResult.raisedRequest := by
  exact ⟨rfl, by decide⟩

/-- Claim C4 as amended.  Transient HTTP failures are retried up to 3
attempts with a fixed 30-second sleep after each failed attempt; when
every attempt raises a RequestException the wrapper makes exactly 3 calls
and 3 sleeps and then returns None (a normal value): the underlying
exception is swallowed, not propagated. -/
theorem C4_retry_exhaustion_amended {α : Type} (f : ℕ → Attempt α)
    (hf : ∀ n, n < 3 → f n = Attempt.requestException) :
    retry_wrapper f = (RetryResult.noneReturn, 3, 3) ∧ sleep_interval = 30 := by
  refine ⟨?_, rfl⟩
  have h0 := hf 0 (by norm_num)
  have h1 := hf 1 (by norm_num)
  have h2 := hf 2 (by norm_num)
  simp [retry_wrapper, retryAux, h0, h1, h2]

/-- Witness for the amended C4 at the always-failing fetch. -/
theorem C4_retry_exhaustion_amended_witness :
    retry_wrapper (fun _ => (Attempt.requestException : Attempt Unit))
        = (RetryResult.noneReturn, 3, 3) ∧ sleep_interval = 30 :=
  C4_retry_exhaustion_amended (fun _ => Attempt.requestException)
    (fun _ _ => rfl)

/-- Claim C10.  The retry wrapper catches only RequestException: a wrapped
function whose first attempt raises any other kind of exception has that
exception propagate immediately — exactly one call, no sleep, no further
attempts. -/
theorem C10_other_exception_propagates {α : Type} (f : ℕ → Attempt α)
    (hf : f 0 = Attempt.otherException) :
    retry_wrapper f = (RetryResult.raisedOther, 1, 0) := by
  simp [retry_wrapper, retryAux, hf]

/-- Witness for C10 at a fetch that always raises a non-request
exception. -/
theorem C10_other_exception_propagates_witness :
    retry_wrapper (fun _ => (Attempt.otherException : Attempt Unit))
        = (RetryResult.raisedOther, 1, 0) :=
  C10_other_exception_propagates (fun _ => Attempt.otherException) rfl

/-! ## Formula catalogues and keyword invocation (`src/data/loader.py`)

`TeamGameDataLoader.add_independent_team_stats` calls every registered
formula as `stat_func(**fields_dict)`.  A formula is characterised for
this purpose by its declared keyword parameter names and by whether its
signature ends in the catch-all `**_`.  CPython keyword binding: a keyword
not matching any declared parameter raises a generic
`TypeError: unexpected keyword argument` unless the signature has a
catch-all, which silently absorbs it; after binding, a declared parameter
left unbound raises a generic `TypeError: missing required argument`
naming it.  The distinguished `MissingFieldError` the spec postulates is
represented as its own outcome so that theorems can state whether the
source ever produces it (no such class exists anywhere in the source). -/

/-- Signature of a registered formula: its catalogue name, its declared
parameter names in order (excluding `self`), and whether it has the
catch-all `**_`. -/
structure FormulaSig where
  name : String
  params : List String
  hasKwargs : Bool
deriving DecidableEq

/-- Outcome of invoking a formula with a set of named fields. -/
inductive CallOutcome where
  | ok
  | typeErrorUnexpected (kw : String)
  | typeErrorMissing (param : String)
  | missingFieldError (param : String)
deriving DecidableEq

/-- After keyword binding: the first declared parameter not provided, if
any, raises a generic TypeError naming it. -/
def checkMissing (sig : FormulaSig) (provided : List String) : CallOutcome :=
  match sig.params.find? (fun p => !(provided.contains p)) with
  | some p => CallOutcome.typeErrorMissing p
  | none => CallOutcome.ok

/-- CPython keyword binding for `stat_func(**fields)`: an unexpected
keyword raises a generic TypeError unless the catch-all absorbs it; then
missing declared parameters are checked. -/
def pyCall (sig : FormulaSig) (provided : List String) : CallOutcome :=
  match provided.find? (fun k => !(sig.params.contains k)) with
  | some k =>
    if sig.hasKwargs then checkMissing sig provided
    else CallOutcome.typeErrorUnexpected k
  | none => checkMissing sig provided

/-- `Stats.independent_stat_method_map`: the twelve formulas registered by
the base class, with the parameter lists of their implementations. -/
def statsIndependentCatalogue : List FormulaSig :=
  [ ⟨"FG_PCT", ["FGM", "FGA"], true⟩,
    ⟨"FT_PCT", ["FTM", "FTA"], true⟩,
    ⟨"FG2A", ["FGA", "FG3A"], true⟩,
    ⟨"FG2M", ["FGM", "FG3M"], true⟩,
    ⟨"FG2_PCT", ["FGA", "FGM", "FG3A", "FG3M"], true⟩,
    ⟨"2PAr", ["FGA", "FG3A"], true⟩,
    ⟨"FG3_PCT", ["FG3M", "FG3A"], true⟩,
    ⟨"3PAr", ["FGA", "FG3A"], true⟩,
    ⟨"eFG_PCT", ["FGA", "FGM", "FG3M"], true⟩,
    ⟨"TS_PCT", ["PTS", "FGA", "FTA"], true⟩,
    ⟨"MINOR_POSS", ["FGA", "FTA", "TOV"], true⟩,
    ⟨"MAJOR_POSS", ["FGA", "FTA", "TOV", "OREB"], true⟩ ]

/-- `TeamStats.__init__` update of the independent map. -/
def teamIndependentCatalogue : List FormulaSig :=
  statsIndependentCatalogue ++
  [ ⟨"TOV_PCT", ["FGA", "FTA", "TOV"], true⟩,
    ⟨"SHOOTING_FACTOR", ["FGA", "FGM", "FG3M"], true⟩,
    ⟨"TOV_FACTOR", ["TOV", "FGA", "FTA"], true⟩,
    ⟨"FT_FACTOR", ["FTM", "FGA"], true⟩ ]

/-- `TeamStats.dependent_stat_method_map`. -/
def teamDependentCatalogue : List FormulaSig :=
  [ ⟨"PLUS_MINUS", ["PTS", "OPP_PTS"], true⟩,
    ⟨"REB_PCT", ["REB", "OPP_REB"], true⟩,
    ⟨"DREB_PCT", ["DREB", "OPP_OREB"], true⟩,
    ⟨"OREB_PCT", ["OREB", "OPP_DREB"], true⟩,
    ⟨"PYTHAG_WINS", ["PTS", "OPP_PTS"], true⟩,
    ⟨"REB_FACTOR", ["REB", "OPP_REB"], true⟩,
    ⟨"FOUR_FACTOR_SCORE",
      ["FGA", "FGM", "FG3M", "FTM", "FTA", "REB", "OPP_REB", "TOV"], true⟩,
    ⟨"POSS",
      ["FGA", "FGM", "FTA", "DREB", "OREB", "TOV", "OPP_FGA", "OPP_FGM",
       "OPP_FTA", "OPP_OREB", "OPP_DREB", "OPP_TOV"], true⟩,
    ⟨"PACE",
      ["FGA", "FGM", "FTA", "DREB", "OREB", "TOV", "MP", "OPP_FGA",
       "OPP_FGM", "OPP_FTA", "OPP_OREB", "OPP_DREB", "OPP_TOV"], true⟩,
    ⟨"OFF_RATING",
      ["PTS", "FGA", "FGM", "FTA", "DREB", "OREB", "TOV", "OPP_FGA",
       "OPP_FGM", "OPP_FTA", "OPP_OREB", "OPP_DREB", "OPP_TOV"], true⟩,
    ⟨"DEF_RATING",
      ["FGA", "FGM", "FTA", "DREB", "OREB", "TOV", "OPP_PTS", "OPP_FGA",
       "OPP_FGM", "OPP_FTA", "OPP_OREB", "OPP_DREB", "OPP_TOV"], true⟩ ]

/-- `PlayerStats.game_score`, registered as GAME_SCORE: the only
independent formula whose signature has no `**_` catch-all. -/
def gameScoreSig : FormulaSig :=
  ⟨"GAME_SCORE",
    ["PTS", "FGM", "FGA", "FTM", "FTA", "OREB", "DREB", "STL", "AST",
     "BLK", "PF", "TOV"], false⟩

/-- `PlayerStats.__init__` update of the independent map. -/
def playerIndependentCatalogue : List FormulaSig :=
  statsIndependentCatalogue ++ [gameScoreSig]

/-- `PlayerStats.dependent_stat_method_map`.  `PlayerStats.rebound_pct`
(registered as REB%) has no `**_` catch-all. -/
def playerDependentCatalogue : List FormulaSig :=
  [ ⟨"AST%", ["AST", "FGM", "MP", "TEAM_FGM", "TEAM_MP"], true⟩,
    ⟨"DREB%", ["DREB", "MP", "TEAM_DREB", "TEAM_MP", "OPP_OREB"], true⟩,
    ⟨"OREB%", ["OREB", "MP", "TEAM_OREB", "TEAM_MP", "OPP_DREB"], true⟩,
    ⟨"REB%",
      ["DREB", "OREB", "MP", "TEAM_DREB", "TEAM_OREB", "TEAM_MP",
       "OPP_DREB", "OPP_OREB"], false⟩,
    ⟨"BLK%", ["BLK", "OPP_FGA", "OPP_FG3A", "PLAYER_MP", "TEAM_MP"], true⟩,
    ⟨"STL%", ["STL", "MP", "TEAM_MP", "OPP_POSS"], true⟩,
    ⟨"USG%",
      ["FGA", "FTA", "TOV", "MP", "TEAM_FGA", "TEAM_FTA", "TEAM_TOV",
       "TEAM_MP"], true⟩,
    ⟨"TOT_POSS",
      ["PTS", "FGA", "FGM", "FTA", "FTM", "OREB", "AST", "TOV", "MP",
       "TEAM_PTS", "TEAM_FGA", "TEAM_FGM", "TEAM_FTA", "TEAM_FTM",
       "TEAM_OREB", "TEAM_AST", "TEAM_TOV", "TEAM_MP", "OPP_DREB"], true⟩,
    ⟨"PPROD",
      ["PTS", "FGA", "FGM", "FG3M", "FTM", "OREB", "AST", "MP",
       "TEAM_PTS", "TEAM_FGA", "TEAM_FGM", "TEAM_FG3M", "TEAM_FTA",
       "TEAM_FTM", "TEAM_OREB", "TEAM_AST", "TEAM_TOV", "TEAM_MP",
       "OPP_DREB"], true⟩,
    ⟨"OffRtg",
      ["PTS", "FGA", "FGM", "FG3M", "FTA", "FTM", "OREB", "AST", "TOV",
       "MP", "TEAM_PTS", "TEAM_FGA", "TEAM_FGM", "TEAM_FG3M", "TEAM_FTA",
       "TEAM_FTM", "TEAM_OREB", "TEAM_AST", "TEAM_TOV", "TEAM_MP",
       "OPP_DREB"], true⟩,
    ⟨"FLOOR%",
      ["PTS", "FGA", "FGM", "FTA", "FTM", "OREB", "AST", "TOV", "MP",
       "TEAM_PTS", "TEAM_FGA", "TEAM_FGM", "TEAM_FTA", "TEAM_FTM",
       "TEAM_OREB", "TEAM_AST", "TEAM_TOV", "TEAM_MP", "OPP_DREB"], true⟩ ]

/-- Every formula registered in an independent or dependent catalogue of
the `Stats` family. -/
def allCatalogueFormulas : List FormulaSig :=
  teamIndependentCatalogue ++ teamDependentCatalogue ++
    playerIndependentCatalogue ++ playerDependentCatalogue

/-- With the catch-all present, keyword binding cannot fail on unexpected
keywords, so the call reduces to the missing-parameter check. -/
lemma pyCall_of_hasKwargs (sig : FormulaSig) (provided : List String)
    (h : sig.hasKwargs = true) :
    pyCall sig provided = checkMissing sig provided := by
  unfold pyCall
  cases hfind : provided.find? (fun k => !(sig.params.contains k)) <;> simp [h]

/-- If every declared parameter is provided, the missing-parameter check
succeeds. -/
lemma checkMissing_ok (sig : FormulaSig) (provided : List String)
    (h : ∀ p ∈ sig.params, provided.contains p = true) :
    checkMissing sig provided = CallOutcome.ok := by
  unfold checkMissing
  rw [List.find?_eq_none.mpr]
  intro p hp
  simpa using h p hp

/-- The invocation machinery can only produce ok, a generic unexpected-
keyword TypeError, or a generic missing-parameter TypeError — never the
distinguished MissingFieldError. -/
lemma pyCall_ne_missingFieldError (sig : FormulaSig) (provided : List String)
    (p : String) :
    pyCall sig provided ≠ CallOutcome.missingFieldError p := by
  unfold pyCall checkMissing
  cases provided.find? (fun k => !(sig.params.contains k)) <;>
    cases sig.params.find? (fun q => !(provided.contains q)) <;>
    simp <;> split <;> simp

/-- Every catalogue formula other than GAME_SCORE and REB% has the
`**_` catch-all. -/
lemma catalogue_hasKwargs :
    ∀ sig ∈ allCatalogueFormulas,
      sig.name ≠ "GAME_SCORE" → sig.name ≠ "REB%" → sig.hasKwargs = true := by
  decide

/-- Claim C5 counterexample.  GAME_SCORE is registered in the player
independent catalogue, yet invoking it with a strict superset of its
required fields (its parameters plus MP) fails with a generic unexpected-
keyword TypeError rather than succeeding; and invoking the registered
eFG_PCT formula with FGA absent fails with a generic TypeError naming
FGA, not with the distinguished MissingFieldError the claim demands. -/
theorem C5_missing_field_counterexample :
    gameScoreSig ∈ playerIndependentCatalogue ∧
      pyCall gameScoreSig ("MP" :: gameScoreSig.params)
        = CallOutcome.typeErrorUnexpected "MP" ∧
      pyCall gameScoreSig ("MP" :: gameScoreSig.params) ≠ CallOutcome.ok ∧
      (⟨"eFG_PCT", ["FGA", "FGM", "FG3M"], true⟩ : FormulaSig)
        ∈ teamIndependentCatalogue ∧
      pyCall ⟨"eFG_PCT", ["FGA", "FGM", "FG3M"], true⟩ ["FGM", "FG3M"]
        = CallOutcome.typeErrorMissing "FGA" ∧
      CallOutcome.typeErrorMissing "FGA"
        ≠ CallOutcome.missingFieldError "FGA" := by
  refine ⟨by decide, by decide, by decide, by decide, by decide, by decide⟩

/-- Claim C5 as amended.  Every formula registered in the catalogues
except GAME_SCORE and REB% (whose implementations lack the `**_`
catch-all) succeeds when invoked with any superset of its required named
fields, the extra fields silently ignored; no invocation ever produces a
distinguished MissingFieldError (no such class exists in the source); and
for every catch-all formula, any failing invocation fails with a generic
TypeError naming an absent required field. -/
theorem C5_missing_field_amended :
    (∀ sig ∈ allCatalogueFormulas,
      sig.name ≠ "GAME_SCORE" → sig.name ≠ "REB%" →
      ∀ provided : List String,
        (∀ p ∈ sig.params, provided.contains p = true) →
        pyCall sig provided = CallOutcome.ok) ∧
    (∀ (sig : FormulaSig) (provided : List String) (p : String),
      pyCall sig provided ≠ CallOutcome.missingFieldError p) ∧
    (∀ sig ∈ allCatalogueFormulas, ∀ provided : List String,
      sig.hasKwargs = true → pyCall sig provided ≠ CallOutcome.ok →
      ∃ q ∈ sig.params, provided.contains q = false ∧
        pyCall sig provided = CallOutcome.typeErrorMissing q) := by
  refine ⟨?_, pyCall_ne_missingFieldError, ?_⟩
  · intro sig hmem hn1 hn2 provided hprov
    rw [pyCall_of_hasKwargs sig provided (catalogue_hasKwargs sig hmem hn1 hn2)]
    exact checkMissing_ok sig provided hprov
  · intro sig _ provided hkw hne
    rw [pyCall_of_hasKwargs sig provided hkw] at hne ⊢
    simp only [checkMissing] at hne ⊢
    cases hfind : sig.params.find? (fun p => !(provided.contains p)) with
    | none => rw [hfind] at hne; exact absurd rfl hne
    | some q =>
      refine ⟨q, List.mem_of_find?_eq_some hfind, ?_, rfl⟩
      have h := List.find?_some hfind
      simpa using h

/-- Witness for the amended C5: the registered eFG_PCT formula invoked
with its three required fields plus an extra PTS field succeeds; a call
of TS_PCT with FTA absent is a generic TypeError naming FTA, not a
MissingFieldError. -/
theorem C5_missing_field_amended_witness :
    pyCall ⟨"eFG_PCT", ["FGA", "FGM", "FG3M"], true⟩
        ["FGA", "FGM", "FG3M", "PTS"] = CallOutcome.ok ∧
      pyCall ⟨"TS_PCT", ["PTS", "FGA", "FTA"], true⟩ ["PTS", "FGA"]
        ≠ CallOutcome.missingFieldError "FTA" :=
  ⟨C5_missing_field_amended.1 ⟨"eFG_PCT", ["FGA", "FGM", "FG3M"], true⟩
      (by decide) (by decide) (by decide)
      ["FGA", "FGM", "FG3M", "PTS"] (by decide),
    C5_missing_field_amended.2.1 ⟨"TS_PCT", ["PTS", "FGA", "FTA"], true⟩
      ["PTS", "FGA"] "FTA"⟩

end NBA
